import Mathlib

/-!
Shallow embedding of `src/task_manager/task.py`: the `Task` dataclass with
validated construction, guarded status transitions, field updates, the
overdue query and the dictionary projection.

Python exceptions are modelled by an error type; a mutating method that can
raise returns `Except (PyError × Task) Task`, where the error carries the
object state at the moment the exception propagates (in this code every
guard precedes every assignment, which the frame theorems make explicit).
Timestamps are modelled as integers (`DateTime := Int`): the code only
compares them with `<`/`>` and records `datetime.now()`, which every
mutating operation receives here as an explicit `now` argument.
-/

namespace TaskManager

/-- Timestamps: the code only orders them and stores them, so an integer
timeline suffices. -/
abbrev DateTime := Int

/-- Modelled from the spec: `ValidationError` is the application error type
defined in `src/task_manager/exceptions.py`, a file absent from the sources;
the spec describes it as the sole application-level signaling mechanism, a
distinct collaborator type. The remaining constructors are Python builtin
exceptions raised by library machinery: `Enum.__getitem__` raises `KeyError`
on an unknown name, `Enum.__call__` raises `ValueError` on an unknown value,
and attribute access on `None` raises `AttributeError`. -/
inductive PyError where
  | validationError (msg : String)
  | keyError
  | valueError
  | attributeError
deriving DecidableEq

/-- `TaskStatus` enum: PENDING, IN_PROGRESS, COMPLETED, CANCELLED. -/
inductive TaskStatus where
  | pending
  | in_progress
  | completed
  | cancelled
deriving DecidableEq

/-- The `.value` of a `TaskStatus` member (its lowercase snake string). -/
def TaskStatus.value : TaskStatus → String
  | .pending => "pending"
  | .in_progress => "in_progress"
  | .completed => "completed"
  | .cancelled => "cancelled"

/-- `TaskPriority` enum: LOW=1, MEDIUM=2, HIGH=3, CRITICAL=4. -/
inductive TaskPriority where
  | low
  | medium
  | high
  | critical
deriving DecidableEq

/-- The `.value` of a `TaskPriority` member (its integer code). -/
def TaskPriority.value : TaskPriority → Int
  | .low => 1
  | .medium => 2
  | .high => 3
  | .critical => 4

/-- `TaskPriority[name]`: lookup by member name, as `Enum.__getitem__` does
with the upper-cased string the code passes it. `none` models the `KeyError`
case. -/
def priorityFromName (s : String) : Option TaskPriority :=
  if s = "LOW" then some .low
  else if s = "MEDIUM" then some .medium
  else if s = "HIGH" then some .high
  else if s = "CRITICAL" then some .critical
  else none

/-- `TaskPriority(n)`: lookup by member value, as `Enum.__call__` does.
`none` models the `ValueError` case. -/
def priorityFromValue (n : Int) : Option TaskPriority :=
  if n = 1 then some .low
  else if n = 2 then some .medium
  else if n = 3 then some .high
  else if n = 4 then some .critical
  else none

/-- `str.upper()` on the ASCII names involved: uppercase every character. -/
def upperPy (s : String) : String := String.mk (s.data.map Char.toUpper)

/-- `str.strip()`: remove leading and trailing whitespace. -/
def stripPy (s : String) : String :=
  String.mk (((s.data.dropWhile Char.isWhitespace).reverse.dropWhile
    Char.isWhitespace).reverse)

/-- The runtime type of the `priority` argument: `Union[TaskPriority, int,
str, None]`. -/
inductive PriorityInput where
  | enum (p : TaskPriority)
  | str (s : String)
  | int (n : Int)
  | noneV
deriving DecidableEq

/-- The `Task` dataclass state. The stored `priority` field is an
`Option TaskPriority` because `set_priority` passes a `None` argument
through unchanged into the field; every constructor-produced task has
`some _` here. -/
structure Task where
  task_id : Int
  title : String
  description : String
  status : TaskStatus
  priority : Option TaskPriority
  created_at : DateTime
  updated_at : DateTime
  due_date : Option DateTime
deriving DecidableEq

/-- The priority normalization block of `__post_init__`: str goes through
`TaskPriority[s.upper()]`, int through `TaskPriority(n)`, `None` becomes
MEDIUM, an enum instance is kept. -/
def normalizePriorityInit : PriorityInput → Except PyError TaskPriority
  | .str s =>
    match priorityFromName (upperPy s) with
    | some p => .ok p
    | none => .error .keyError
  | .int n =>
    match priorityFromValue n with
    | some p => .ok p
    | none => .error .valueError
  | .noneV => .ok .medium
  | .enum p => .ok p

/-- `validate()`: checks title non-empty, title length, task_id sign and the
due_date/created_at order, raising on the first violated rule. A Python
`datetime` is always truthy, so `if self.due_date` tests only for `None`. -/
def validate (t : Task) : Except PyError Unit :=
  if t.title = "" ∨ (stripPy t.title).length = 0 then
    .error (.validationError "Title cannot be empty")
  else if t.title.length > 200 then
    .error (.validationError "Title cannot exceed 200 characters")
  else if t.task_id < 0 then
    .error (.validationError "Task ID must be non-negative")
  else
    match t.due_date with
    | some dd =>
      if dd < t.created_at then
        .error (.validationError "Due date cannot be before creation date")
      else .ok ()
    | none => .ok ()

/-- Dataclass construction followed by `__post_init__`: all fields are set,
priority is normalized, then `validate()` runs; a failure propagates and no
instance escapes. -/
def mkTask (task_id : Int) (title description : String) (status : TaskStatus)
    (priority : PriorityInput) (created_at updated_at : DateTime)
    (due_date : Option DateTime) : Except PyError Task :=
  match normalizePriorityInit priority with
  | .error e => .error e
  | .ok p =>
    let t : Task :=
      { task_id := task_id, title := title, description := description,
        status := status, priority := some p, created_at := created_at,
        updated_at := updated_at, due_date := due_date }
    match validate t with
    | .error e => .error e
    | .ok _ => .ok t

/-- `mark_in_progress()`: guarded by COMPLETED then CANCELLED, then sets
status and refreshes updated_at. -/
def mark_in_progress (t : Task) (now : DateTime) : Except (PyError × Task) Task :=
  if t.status = TaskStatus.completed then
    .error (.validationError "Cannot modify a completed task", t)
  else if t.status = TaskStatus.cancelled then
    .error (.validationError "Cannot modify a cancelled task", t)
  else
    .ok { t with status := TaskStatus.in_progress, updated_at := now }

/-- `mark_completed()`: guarded by CANCELLED only. -/
def mark_completed (t : Task) (now : DateTime) : Except (PyError × Task) Task :=
  if t.status = TaskStatus.cancelled then
    .error (.validationError "Cannot complete a cancelled task", t)
  else
    .ok { t with status := TaskStatus.completed, updated_at := now }

/-- `mark_cancelled()`: guarded by COMPLETED only. -/
def mark_cancelled (t : Task) (now : DateTime) : Except (PyError × Task) Task :=
  if t.status = TaskStatus.completed then
    .error (.validationError "Cannot cancel a completed task", t)
  else
    .ok { t with status := TaskStatus.cancelled, updated_at := now }

/-- `update_title(new_title)`: the emptiness check (`not new_title` or
whitespace-only) and the 200-character check precede both assignments. -/
def update_title (t : Task) (new_title : String) (now : DateTime) :
    Except (PyError × Task) Task :=
  if new_title = "" ∨ (stripPy new_title).length = 0 then
    .error (.validationError "Title cannot be empty", t)
  else if new_title.length > 200 then
    .error (.validationError "Title cannot exceed 200 characters", t)
  else
    .ok { t with title := new_title, updated_at := now }

/-- `set_priority(priority)`: str and int are converted as in the
constructor; everything else, a `TaskPriority` or `None`, is assigned
unchanged by the `else` branch; updated_at is refreshed on every path that
reaches the assignments. -/
def set_priority (t : Task) (priority : PriorityInput) (now : DateTime) :
    Except (PyError × Task) Task :=
  match priority with
  | .str s =>
    match priorityFromName (upperPy s) with
    | some p => .ok { t with priority := some p, updated_at := now }
    | none => .error (.keyError, t)
  | .int n =>
    match priorityFromValue n with
    | some p => .ok { t with priority := some p, updated_at := now }
    | none => .error (.valueError, t)
  | .enum p => .ok { t with priority := some p, updated_at := now }
  | .noneV => .ok { t with priority := none, updated_at := now }

/-- `is_overdue()`: False when due_date is `None`; otherwise true iff now is
strictly after due_date and status is neither COMPLETED nor CANCELLED. -/
def is_overdue (t : Task) (now : DateTime) : Bool :=
  match t.due_date with
  | none => false
  | some d =>
    decide (d < now) && decide (t.status ≠ TaskStatus.completed) &&
      decide (t.status ≠ TaskStatus.cancelled)

/-- The dictionary produced by `to_dict()`. The `created_at`, `updated_at`
and `due_date` fields keep the `DateTime` value and stand for its
`isoformat()` ISO-8601 rendering, an injective formatting left symbolic
here; `due_date := none` is the JSON null. -/
structure TaskDict where
  task_id : Int
  title : String
  description : String
  status : String
  priority : Int
  created_at : DateTime
  updated_at : DateTime
  due_date : Option DateTime
  is_overdue : Bool
deriving DecidableEq

/-- `to_dict()`: pure projection. `self.priority.value` on a task whose
priority field holds `None` raises `AttributeError`. -/
def to_dict (t : Task) (now : DateTime) : Except PyError TaskDict :=
  match t.priority with
  | none => .error .attributeError
  | some p =>
    .ok { task_id := t.task_id, title := t.title,
          description := t.description, status := t.status.value,
          priority := p.value, created_at := t.created_at,
          updated_at := t.updated_at, due_date := t.due_date,
          is_overdue := is_overdue t now }

/-- A constructor-produced task used as concrete input by witnesses:
`Task(task_id=1, title="x")` built at time 0. -/
def sampleOk : Task :=
  { task_id := 1, title := "x", description := "", status := .pending,
    priority := some .medium, created_at := 0, updated_at := 0,
    due_date := none }

/-- `sampleOk` after `set_priority(None)` at time 5: its priority field
holds `None`. -/
def sampleBad : Task :=
  { sampleOk with priority := none, updated_at := 5 }

/-- `sampleOk` with status COMPLETED. -/
def sampleCompleted : Task :=
  { sampleOk with status := .completed }

/-- `sampleOk` with a due date at time 10. -/
def sampleDue : Task :=
  { sampleOk with due_date := some 10 }

/-- Whether a construction outcome is a raised `ValidationError`. -/
def isValidationFailure : Except PyError Task → Bool
  | .error (.validationError _) => true
  | _ => false

/-- Claim C1: for every task, `mark_in_progress` raises iff status is
COMPLETED or CANCELLED, `mark_completed` raises iff status is CANCELLED,
`mark_cancelled` raises iff status is COMPLETED, and on success each
operation sets status to its target state (refreshing `updated_at`). -/
theorem transition_guard_matrix (t : Task) (now : DateTime) :
    ((∃ e, mark_in_progress t now = .error e) ↔
      (t.status = TaskStatus.completed ∨ t.status = TaskStatus.cancelled)) ∧
    ((∃ e, mark_completed t now = .error e) ↔ t.status = TaskStatus.cancelled) ∧
    ((∃ e, mark_cancelled t now = .error e) ↔ t.status = TaskStatus.completed) ∧
    (¬(t.status = TaskStatus.completed ∨ t.status = TaskStatus.cancelled) →
      mark_in_progress t now =
        .ok { t with status := TaskStatus.in_progress, updated_at := now }) ∧
    (t.status ≠ TaskStatus.cancelled →
      mark_completed t now =
        .ok { t with status := TaskStatus.completed, updated_at := now }) ∧
    (t.status ≠ TaskStatus.completed →
      mark_cancelled t now =
        .ok { t with status := TaskStatus.cancelled, updated_at := now }) := by
  cases h : t.status <;>
    simp [mark_in_progress, mark_completed, mark_cancelled, h]

/-- Witness for C1: on the concrete pending task, `mark_in_progress`
succeeds and moves the status to IN_PROGRESS. -/
theorem transition_guard_matrix_witness :
    mark_in_progress sampleOk 7 =
      .ok { sampleOk with status := TaskStatus.in_progress, updated_at := 7 } :=
  (transition_guard_matrix sampleOk 7).2.2.2.1 (by decide)

/-- Claim C2: when a status transition raises `ValidationError`, the object
state carried out with the exception is exactly the input state: every guard
precedes every assignment. -/
theorem failed_transition_frame (t : Task) (now : DateTime) (e : PyError) (u : Task) :
    (mark_in_progress t now = .error (e, u) → u = t) ∧
    (mark_completed t now = .error (e, u) → u = t) ∧
    (mark_cancelled t now = .error (e, u) → u = t) := by
  refine ⟨?_, ?_, ?_⟩ <;> intro h <;>
    cases hs : t.status <;>
      simp [mark_in_progress, mark_completed, mark_cancelled, hs] at h <;>
        exact h.2.symm

/-- Witness for C2: `mark_in_progress` on the concrete completed task raises
and the carried state is the task itself. -/
theorem failed_transition_frame_witness : sampleCompleted = sampleCompleted :=
  (failed_transition_frame sampleCompleted 5
    (.validationError "Cannot modify a completed task") sampleCompleted).1 rfl

/-- Claim C3 counterexample: constructing with the unrecognized priority
string "urgent" raises `KeyError` and with the unrecognized integer 7 raises
`ValueError`; neither outcome is a `ValidationError`. -/
theorem ctor_unknown_priority_counterexample :
    mkTask 1 "x" "" TaskStatus.pending (PriorityInput.str "urgent") 0 0 none =
      .error PyError.keyError ∧
    mkTask 1 "x" "" TaskStatus.pending (PriorityInput.int 7) 0 0 none =
      .error PyError.valueError ∧
    isValidationFailure
      (mkTask 1 "x" "" TaskStatus.pending (PriorityInput.str "urgent") 0 0 none) =
      false ∧
    isValidationFailure
      (mkTask 1 "x" "" TaskStatus.pending (PriorityInput.int 7) 0 0 none) =
      false := by
  refine ⟨rfl, rfl, rfl, rfl⟩

/-- Claim C3 as amended: for every string whose upper-casing matches no
priority name the constructor raises `KeyError`, and for every integer that
is not a priority code it raises `ValueError` — builtin lookup errors from
the Enum machinery, not `ValidationError`. -/
theorem ctor_unknown_priority_raises_builtin (tid : Int) (title desc : String)
    (st : TaskStatus) (c u : DateTime) (d : Option DateTime) :
    (∀ s, priorityFromName (upperPy s) = none →
      mkTask tid title desc st (PriorityInput.str s) c u d = .error PyError.keyError) ∧
    (∀ n, priorityFromValue n = none →
      mkTask tid title desc st (PriorityInput.int n) c u d = .error PyError.valueError) := by
  constructor <;> intro x h <;> simp [mkTask, normalizePriorityInit, h]

/-- Witness for C3 amended: the string "urgent" raises `KeyError` at
concrete construction arguments. -/
theorem ctor_unknown_priority_raises_builtin_witness :
    mkTask 1 "x" "" TaskStatus.pending (PriorityInput.str "urgent") 0 0 none =
      .error PyError.keyError :=
  (ctor_unknown_priority_raises_builtin 1 "x" "" TaskStatus.pending 0 0 none).1
    "urgent" (by decide)

/-- Claim C4: `update_title` raises `ValidationError` and carries out the
unchanged state whenever the new title trims to empty or its raw length
exceeds 200; on every other title it sets the title and refreshes
updated_at, touching nothing else. -/
theorem update_title_spec (t : Task) (s : String) (now : DateTime) :
    (((stripPy s).length = 0 ∨ s.length > 200) →
      ∃ m, update_title t s now = .error (PyError.validationError m, t)) ∧
    ((stripPy s).length ≠ 0 → s.length ≤ 200 →
      update_title t s now = .ok { t with title := s, updated_at := now }) := by
  constructor
  · intro h
    by_cases h0 : s = "" ∨ (stripPy s).length = 0
    · exact ⟨"Title cannot be empty", by simp [update_title, h0]⟩
    · have hlen : s.length > 200 := by
        rcases h with h | h
        · exact absurd (Or.inr h) h0
        · exact h
      exact ⟨"Title cannot exceed 200 characters", by simp [update_title, h0, hlen]⟩
  · intro h1 h2
    have h0 : ¬(s = "" ∨ (stripPy s).length = 0) := by
      rintro (rfl | h)
      · exact h1 rfl
      · exact h1 h
    simp [update_title, h0, Nat.not_lt.mpr h2]

/-- Witness for C4: updating the concrete task's title to "title2"
succeeds. -/
theorem update_title_spec_witness :
    update_title sampleOk "title2" 9 =
      .ok { sampleOk with title := "title2", updated_at := 9 } :=
  (update_title_spec sampleOk "title2" 9).2 (by decide) (by decide)

/-- Claim C5: `is_overdue` is false when due_date is unset; with a due date
it is true iff the current time is strictly after the due date and status is
neither COMPLETED nor CANCELLED. (In this embedding it is a pure function of
the task and the clock, matching the method's lack of side effects.) -/
theorem is_overdue_spec (t : Task) (now : DateTime) :
    (t.due_date = none → is_overdue t now = false) ∧
    (∀ d, t.due_date = some d →
      (is_overdue t now = true ↔
        (d < now ∧ t.status ≠ TaskStatus.completed ∧
          t.status ≠ TaskStatus.cancelled))) := by
  constructor
  · intro h; simp [is_overdue, h]
  · intro d h; simp [is_overdue, h, and_assoc]

/-- Witness for C5: the concrete pending task with due date 10 is overdue at
time 20. -/
theorem is_overdue_spec_witness : is_overdue sampleDue 20 = true :=
  ((is_overdue_spec sampleDue 20).2 10 rfl).mpr (by decide)

/-- Claim C6 counterexample: the constructor produces `sampleOk`, a
subsequent `set_priority(None)` leaves the priority field holding `None`,
and on that reachable task `to_dict` raises `AttributeError` instead of
returning a mapping. -/
theorem to_dict_none_priority_counterexample :
    mkTask 1 "x" "" TaskStatus.pending PriorityInput.noneV 0 0 none = .ok sampleOk ∧
    set_priority sampleOk PriorityInput.noneV 5 = .ok sampleBad ∧
    to_dict sampleBad 5 = .error PyError.attributeError :=
  ⟨rfl, rfl, rfl⟩

/-- Claim C6 as amended: for every task whose priority field holds one of
the four enumeration values, `to_dict` returns exactly the mapping of
task_id, title, description, the status string code (one of the four
lowercase snake strings), the priority integer code (in 1..4), the three
timestamps (due_date null when unset) and the computed is_overdue boolean;
a task whose priority field holds `None` makes it raise instead. -/
theorem to_dict_spec (t : Task) (now : DateTime) (p : TaskPriority)
    (h : t.priority = some p) :
    to_dict t now =
      .ok { task_id := t.task_id, title := t.title,
            description := t.description, status := t.status.value,
            priority := p.value, created_at := t.created_at,
            updated_at := t.updated_at, due_date := t.due_date,
            is_overdue := is_overdue t now } ∧
    (t.status.value = "pending" ∨ t.status.value = "in_progress" ∨
      t.status.value = "completed" ∨ t.status.value = "cancelled") ∧
    (p.value = 1 ∨ p.value = 2 ∨ p.value = 3 ∨ p.value = 4) := by
  refine ⟨by simp [to_dict, h], ?_, ?_⟩
  · cases t.status <;> simp [TaskStatus.value]
  · cases p <;> simp [TaskPriority.value]

/-- Witness for C6 amended: the dictionary of the concrete constructed
task. -/
theorem to_dict_spec_witness :
    to_dict sampleOk 0 =
      .ok { task_id := 1, title := "x", description := "",
            status := "pending", priority := 2, created_at := 0,
            updated_at := 0, due_date := none, is_overdue := false } :=
  (to_dict_spec sampleOk 0 TaskPriority.medium rfl).1

/-- Claim C7: constructing with priority "high", "HIGH", 3 or the HIGH
member gives identical results (priority HIGH, all other fields equal), and
constructing with None gives the same result as constructing with MEDIUM. -/
theorem priority_input_representation_independent (tid : Int)
    (title desc : String) (st : TaskStatus) (c u : DateTime)
    (d : Option DateTime) :
    mkTask tid title desc st (PriorityInput.str "high") c u d =
      mkTask tid title desc st (PriorityInput.enum TaskPriority.high) c u d ∧
    mkTask tid title desc st (PriorityInput.str "HIGH") c u d =
      mkTask tid title desc st (PriorityInput.enum TaskPriority.high) c u d ∧
    mkTask tid title desc st (PriorityInput.int 3) c u d =
      mkTask tid title desc st (PriorityInput.enum TaskPriority.high) c u d ∧
    mkTask tid title desc st PriorityInput.noneV c u d =
      mkTask tid title desc st (PriorityInput.enum TaskPriority.medium) c u d ∧
    (∀ t, mkTask tid title desc st (PriorityInput.enum TaskPriority.high) c u d =
        .ok t → t.priority = some TaskPriority.high) := by
  refine ⟨rfl, rfl, rfl, rfl, ?_⟩
  intro t h
  simp only [mkTask, normalizePriorityInit] at h
  split at h
  · exact absurd h (by simp)
  · cases h
    rfl

/-- Witness for C7: the HIGH construction at concrete arguments succeeds and
its stored priority is HIGH. -/
theorem priority_input_representation_independent_witness :
    (Task.mk 1 "x" "" TaskStatus.pending (some TaskPriority.high) 0 0
      none).priority = some TaskPriority.high :=
  (priority_input_representation_independent 1 "x" "" TaskStatus.pending 0 0
    none).2.2.2.2
    (Task.mk 1 "x" "" TaskStatus.pending (some TaskPriority.high) 0 0 none) rfl

/-- Claim C8 counterexample: on the concrete COMPLETED task with
`updated_at = 0`, `mark_completed` at time 5 succeeds but returns a task
whose `updated_at` is 5, a state different from the original — not every
field is left unchanged. -/
theorem mark_completed_noop_counterexample :
    mark_completed sampleCompleted 5 =
      .ok { sampleCompleted with updated_at := 5 } ∧
    ({ sampleCompleted with updated_at := 5 } : Task) ≠ sampleCompleted :=
  ⟨rfl, by decide⟩

/-- Claim C8 as amended: on a task whose status is already COMPLETED,
`mark_completed` succeeds without raising, keeps status COMPLETED and every
other field unchanged except `updated_at`, which it refreshes to the current
time. -/
theorem mark_completed_on_completed (t : Task) (now : DateTime)
    (h : t.status = TaskStatus.completed) :
    mark_completed t now = .ok { t with updated_at := now } := by
  cases t with
  | mk a b c s p ca ua dd =>
    cases h
    simp [mark_completed]

/-- Witness for C8 amended: the concrete completed task at time 5. -/
theorem mark_completed_on_completed_witness :
    mark_completed sampleCompleted 5 =
      .ok { sampleCompleted with updated_at := 5 } :=
  mark_completed_on_completed sampleCompleted 5 rfl

/-- Claim C9: `set_priority(None)` takes the `else` branch, stores `None`
itself in the priority field (not MEDIUM), refreshes `updated_at`, and the
resulting priority is none of the four enumeration members. -/
theorem set_priority_none_passthrough (t : Task) (now : DateTime) :
    set_priority t PriorityInput.noneV now =
      .ok { t with priority := none, updated_at := now } ∧
    (∀ p : TaskPriority,
      ({ t with priority := none, updated_at := now } : Task).priority ≠
        some p) :=
  ⟨rfl, fun _ h => Option.noConfusion h⟩

/-- Witness for C9: `set_priority(None)` on the concrete task yields the
task whose priority field holds `None`. -/
theorem set_priority_none_passthrough_witness :
    set_priority sampleOk PriorityInput.noneV 5 = .ok sampleBad :=
  (set_priority_none_passthrough sampleOk 5).1

/-- Claim C10: construction never inspects the status field: with a valid
task_id, title, due_date and priority, the constructor succeeds for every
initial status, storing it as given. -/
theorem ctor_accepts_any_status (tid : Int) (title desc : String)
    (st : TaskStatus) (pr : PriorityInput) (c u : DateTime)
    (d : Option DateTime) (p : TaskPriority)
    (hp : normalizePriorityInit pr = .ok p)
    (h1 : (stripPy title).length ≠ 0)
    (h2 : title.length ≤ 200)
    (h3 : 0 ≤ tid)
    (h4 : ∀ dd, d = some dd → c ≤ dd) :
    mkTask tid title desc st pr c u d =
      .ok (Task.mk tid title desc st (some p) c u d) := by
  have hne : ¬(title = "" ∨ (stripPy title).length = 0) := by
    rintro (rfl | h)
    · exact h1 rfl
    · exact h1 h
  simp only [mkTask, hp]
  have hv : validate (Task.mk tid title desc st (some p) c u d) = .ok () := by
    simp only [validate]
    rw [if_neg hne, if_neg (by simpa using Nat.not_lt.mpr h2),
      if_neg (Int.not_lt.mpr h3)]
    cases d with
    | none => rfl
    | some dd => simpa using Int.not_lt.mpr (h4 dd rfl)
  rw [hv]

/-- Witness for C10: a task constructed directly in status CANCELLED with a
string priority and a due date, succeeding with no error. -/
theorem ctor_accepts_any_status_witness :
    mkTask 3 "x" "" TaskStatus.cancelled (PriorityInput.str "low") 0 0
      (some 4) =
      .ok (Task.mk 3 "x" "" TaskStatus.cancelled (some TaskPriority.low) 0 0
        (some 4)) :=
  ctor_accepts_any_status 3 "x" "" TaskStatus.cancelled
    (PriorityInput.str "low") 0 0 (some 4) TaskPriority.low rfl (by decide)
    (by decide) (by decide) (fun dd h => by cases h; decide)

end TaskManager
